import Mathlib

/-!
Verification of the interior-design 3D scene component (DesignCanvas.js).

The JavaScript source is embedded shallowly: JS numbers are modelled as
exact rationals (ℚ), JS strings as Lean `String`, absent/optional object
fields as `Option`, and the falsy `||` default idiom as an explicit
coalescing function.  Every definition below mirrors a function or JSX
block of the source file; line references point into the source.
-/

/-- JS `v || d` on numbers: `undefined` and `0` are falsy and give `d`. -/
def jsOrQ (v : Option ℚ) (d : ℚ) : ℚ :=
  match v with
  | none => d
  | some x => if x = 0 then d else x

/-- JS `v || d` on strings: `undefined` and `""` are falsy and give `d`. -/
def jsOrStr (v : Option String) (d : String) : String :=
  match v with
  | none => d
  | some s => if s = "" then d else s

/-- JS `Math.round`: round half toward positive infinity. -/
def jsRound (x : ℚ) : ℤ := ⌊x + 1/2⌋

/-- One character of the regex class `[0-9A-Fa-f]` (source line 10). -/
def isHexDigitChar (c : Char) : Bool :=
  (48 ≤ c.toNat && c.toNat ≤ 57) || (65 ≤ c.toNat && c.toNat ≤ 70) ||
    (97 ≤ c.toNat && c.toNat ≤ 102)

/-- The test `/^[0-9A-Fa-f]{6}$/.test s` (source line 10). -/
def matchesHex6 (s : String) : Bool :=
  s.data.length = 6 && s.data.all isHexDigitChar

/-- `hexColor.startsWith('#') ? hexColor.slice(1) : hexColor` (source line 9). -/
def cleanHexOf (s : String) : String :=
  match s.data with
  | c :: rest => if c = '#' then String.mk rest else s
  | [] => s

/-- `parseInt` of one hex digit (digits validated by `matchesHex6` first). -/
def hexVal (c : Char) : ℕ :=
  if c.toNat ≤ 57 then c.toNat - 48
  else if c.toNat ≤ 70 then c.toNat - 55
  else c.toNat - 87

/-- Validation and byte extraction of `adjustColorBrightness`
(source lines 9-17): strip an optional `#`, test the 6-hex-digit form,
then read the three channel bytes with `parseInt(_, 16)`. -/
def parseHexColor (str : String) : Option (ℕ × ℕ × ℕ) :=
  let clean := cleanHexOf str
  if matchesHex6 clean then
    match clean.data with
    | [c1, c2, c3, c4, c5, c6] =>
        some (16 * hexVal c1 + hexVal c2, 16 * hexVal c3 + hexVal c4,
          16 * hexVal c5 + hexVal c6)
    | _ => none
  else none

/-- RGB (each channel already divided by 255) to HSL, returning
`(h, s, l)` (source lines 20-43). -/
def rgbToHsl (r g b : ℚ) : ℚ × ℚ × ℚ :=
  let mx := max r (max g b)
  let mn := min r (min g b)
  let l := (mx + mn) / 2
  if mx = mn then (0, 0, l)
  else
    let d := mx - mn
    let s := if l > 1/2 then d / (2 - mx - mn) else d / (mx + mn)
    let h :=
      if mx = r then (g - b) / d + (if g < b then 6 else 0)
      else if mx = g then (b - r) / d + 2
      else if mx = b then (r - g) / d + 4
      else 0
    (h / 6, s, l)

/-- `hueToRgb` (source lines 68-75). -/
def hueToRgb (p q t0 : ℚ) : ℚ :=
  let t1 := if t0 < 0 then t0 + 1 else t0
  let t := if t1 > 1 then t1 - 1 else t1
  if t < 1/6 then p + (q - p) * 6 * t
  else if t < 1/2 then q
  else if t < 2/3 then p + (q - p) * (2/3 - t) * 6
  else p

/-- HSL back to RGB (source lines 49-58). -/
def hslToRgb (h s l : ℚ) : ℚ × ℚ × ℚ :=
  if s = 0 then (l, l, l)
  else
    let q := if l < 1/2 then l * (1 + s) else l + s - l * s
    let p := 2 * l - q
    (hueToRgb p q (h + 1/3), hueToRgb p q h, hueToRgb p q (h - 1/3))

/-- JS `n.toString(16)` for the byte values the code serializes
(`0 ≤ n ≤ 255`): lowercase hex digits, no padding. -/
def jsHexString (n : ℕ) : String :=
  if n < 16 then String.mk [Nat.digitChar n]
  else String.mk [Nat.digitChar (n / 16), Nat.digitChar (n % 16)]

/-- `toHex` of `adjustColorBrightness` (source lines 61-64): round the
channel to one of 256 levels and zero-pad to two hex digits. -/
def toHex (c : ℚ) : String :=
  let hex := jsHexString (jsRound (c * 255)).toNat
  if hex.length = 1 then "0" ++ hex else hex

/-- `adjustColorBrightness(hexColor, shade)` (source lines 7-66).
Invalid input passes through unchanged; otherwise convert to HSL,
replace the lightness by `shade/100`, convert back and serialize. -/
def adjustColorBrightness (hexColor : String) (shade : ℚ) : String :=
  match parseHexColor hexColor with
  | none => hexColor
  | some (ri, gi, bi) =>
    let hsl := rgbToHsl ((ri : ℚ) / 255) ((gi : ℚ) / 255) ((bi : ℚ) / 255)
    let l := shade / 100
    let rgb := hslToRgb hsl.1 hsl.2.1 l
    "#" ++ toHex rgb.1 ++ toHex rgb.2.1 ++ toHex rgb.2.2

/-- Pointwise form of `rgbToHsl` on a packed triple. -/
def rgbToHsl3 (v : ℚ × ℚ × ℚ) : ℚ × ℚ × ℚ :=
  rgbToHsl v.1 v.2.1 v.2.2

/-- The saturation `rgbToHsl` computes once the maximum `q` and minimum
`p` channel are known (source line 28). -/
def satRecover (p q : ℚ) : ℚ :=
  if (q + p) / 2 > 1/2 then (q - p) / (2 - q - p) else (q - p) / (q + p)

lemma hueToRgb_rise (p q t : ℚ) (h0 : 0 ≤ t) (h1 : t < 1/6) :
    hueToRgb p q t = p + (q - p) * 6 * t := by
  unfold hueToRgb
  dsimp only
  rw [if_neg (show ¬(t < 0) by linarith), if_neg (show ¬(t > 1) by linarith),
    if_pos h1]

lemma hueToRgb_plateau (p q t : ℚ) (h0 : 1/6 ≤ t) (h1 : t < 1/2) :
    hueToRgb p q t = q := by
  unfold hueToRgb
  dsimp only
  rw [if_neg (show ¬(t < 0) by linarith), if_neg (show ¬(t > 1) by linarith),
    if_neg (show ¬(t < 1/6) by linarith), if_pos h1]

lemma hueToRgb_fall (p q t : ℚ) (h0 : 1/2 ≤ t) (h1 : t < 2/3) :
    hueToRgb p q t = p + (q - p) * (2/3 - t) * 6 := by
  unfold hueToRgb
  dsimp only
  rw [if_neg (show ¬(t < 0) by linarith), if_neg (show ¬(t > 1) by linarith),
    if_neg (show ¬(t < 1/6) by linarith), if_neg (show ¬(t < 1/2) by linarith),
    if_pos h1]

lemma hueToRgb_tail (p q t : ℚ) (h0 : 2/3 ≤ t) (h1 : t ≤ 1) :
    hueToRgb p q t = p := by
  unfold hueToRgb
  dsimp only
  rw [if_neg (show ¬(t < 0) by linarith), if_neg (show ¬(t > 1) by linarith),
    if_neg (show ¬(t < 1/6) by linarith), if_neg (show ¬(t < 1/2) by linarith),
    if_neg (show ¬(t < 2/3) by linarith)]

lemma hueToRgb_shift_up (p q t : ℚ) (h0 : 1 < t) (h1 : t ≤ 2) :
    hueToRgb p q t = hueToRgb p q (t - 1) := by
  unfold hueToRgb
  dsimp only
  rw [if_neg (show ¬(t < 0) by linarith), if_pos (show t > 1 from h0),
    if_neg (show ¬(t - 1 < 0) by linarith), if_neg (show ¬(t - 1 > 1) by linarith)]

lemma hueToRgb_shift_down (p q t : ℚ) (h0 : t < 0) (h1 : -1 ≤ t) :
    hueToRgb p q t = hueToRgb p q (t + 1) := by
  unfold hueToRgb
  dsimp only
  rw [if_pos h0, if_neg (show ¬(t + 1 < 0) by linarith),
    if_neg (show ¬(t + 1 > 1) by linarith)]

/-- Evaluate `rgbToHsl` once the maximum channel `q` and the minimum
channel `p` are identified: the lightness is their mean, the saturation
is `satRecover`, and the hue selects the branch of the maximal channel. -/
lemma rgbToHsl_core (R G B q p : ℚ) (hmx : max R (max G B) = q)
    (hmn : min R (min G B) = p) (hne : p ≠ q) :
    rgbToHsl R G B =
      ((if q = R then (G - B) / (q - p) + (if G < B then 6 else 0)
        else if q = G then (B - R) / (q - p) + 2
        else if q = B then (R - G) / (q - p) + 4 else 0) / 6,
       satRecover p q, (q + p) / 2) := by
  unfold rgbToHsl satRecover
  dsimp only
  rw [hmx, hmn, if_neg (fun e => hne e.symm)]

/-- `rgbToHsl` on a triple sorted as (max, mid, min). -/
lemma rgbToHsl_qmp (p q m : ℚ) (hpq : p < q) (h1 : p ≤ m) (h2 : m ≤ q) :
    rgbToHsl q m p = (((m - p) / (q - p)) / 6, satRecover p q, (q + p) / 2) := by
  rw [rgbToHsl_core q m p q p (max_eq_left (max_le h2 hpq.le))
    (by rw [min_eq_right h1, min_eq_right hpq.le]) hpq.ne]
  rw [if_pos rfl, if_neg (not_lt.mpr h1), add_zero]

/-- `rgbToHsl` on a triple sorted as (max, min, mid), mid above min. -/
lemma rgbToHsl_qpm (p q m : ℚ) (hpq : p < q) (h1 : p < m) (h2 : m ≤ q) :
    rgbToHsl q p m =
      (((p - m) / (q - p) + 6) / 6, satRecover p q, (q + p) / 2) := by
  rw [rgbToHsl_core q p m q p (max_eq_left (max_le hpq.le h2))
    (by rw [min_eq_left h1.le, min_eq_right hpq.le]) hpq.ne]
  rw [if_pos rfl, if_pos h1]

/-- `rgbToHsl` on a triple sorted as (mid, max, min), mid below max. -/
lemma rgbToHsl_mqp (p q m : ℚ) (hpq : p < q) (h1 : p ≤ m) (h2 : m < q) :
    rgbToHsl m q p =
      (((p - m) / (q - p) + 2) / 6, satRecover p q, (q + p) / 2) := by
  rw [rgbToHsl_core m q p q p
    (by rw [max_eq_left hpq.le, max_eq_right h2.le])
    (by rw [min_eq_right hpq.le, min_eq_right h1]) hpq.ne]
  rw [if_neg h2.ne', if_pos rfl]

/-- `rgbToHsl` on a triple sorted as (min, max, mid). -/
lemma rgbToHsl_pqm (p q m : ℚ) (hpq : p < q) (h1 : p ≤ m) (h2 : m ≤ q) :
    rgbToHsl p q m =
      (((m - p) / (q - p) + 2) / 6, satRecover p q, (q + p) / 2) := by
  rw [rgbToHsl_core p q m q p
    (by rw [max_eq_left h2, max_eq_right hpq.le])
    (by rw [min_eq_right h2, min_eq_left h1]) hpq.ne]
  rw [if_neg hpq.ne', if_pos rfl]

/-- `rgbToHsl` on a triple sorted as (min, mid, max), mid below max. -/
lemma rgbToHsl_pmq (p q m : ℚ) (hpq : p < q) (h1 : p ≤ m) (h2 : m < q) :
    rgbToHsl p m q =
      (((p - m) / (q - p) + 4) / 6, satRecover p q, (q + p) / 2) := by
  rw [rgbToHsl_core p m q q p
    (by rw [max_eq_right h2.le, max_eq_right (h1.trans h2.le)])
    (by rw [min_eq_left h2.le, min_eq_left h1]) hpq.ne]
  rw [if_neg hpq.ne', if_neg h2.ne', if_pos rfl]

/-- `rgbToHsl` on a triple sorted as (mid, min, max), mid below max. -/
lemma rgbToHsl_mpq (p q m : ℚ) (hpq : p < q) (h1 : p ≤ m) (h2 : m < q) :
    rgbToHsl m p q =
      (((m - p) / (q - p) + 4) / 6, satRecover p q, (q + p) / 2) := by
  rw [rgbToHsl_core m p q q p
    (by rw [max_eq_right hpq.le, max_eq_right h2.le])
    (by rw [min_eq_left hpq.le, min_eq_right h1]) hpq.ne]
  rw [if_neg h2.ne', if_neg hpq.ne', if_pos rfl]

/-- The saturation branch of `rgbToHsl` undoes the `q`/`p` construction
of `hslToRgb` exactly. -/
lemma satRecover_eq (s l q p : ℚ) (hs : 0 < s) (hl0 : 0 < l) (hl1 : l < 1)
    (hq : q = if l < 1/2 then l * (1 + s) else l + s - l * s)
    (hp : p = 2 * l - q) : satRecover p q = s := by
  unfold satRecover
  have hsum : (q + p) / 2 = l := by rw [hp]; ring
  rw [hsum]
  by_cases hl : l < 1/2
  · rw [if_pos hl] at hq
    rw [if_neg (by linarith)]
    have hd : q - p = 2 * l * s := by rw [hp, hq]; ring
    have hqp : q + p = 2 * l := by rw [hp]; ring
    rw [hd, hqp, mul_comm (2 * l) s, mul_div_assoc, div_self (by positivity), mul_one]
  · rw [if_neg hl] at hq
    have hd : q - p = 2 * (1 - l) * s := by rw [hp, hq]; ring
    by_cases hl2 : l > 1/2
    · rw [if_pos hl2]
      have h2 : 2 - q - p = 2 * (1 - l) := by rw [hp]; ring
      rw [hd, h2, mul_comm (2 * (1 - l)) s, mul_div_assoc,
        div_self (by nlinarith), mul_one]
    · have hl3 : l = 1/2 := le_antisymm (not_lt.mp hl2) (not_lt.mp hl)
      rw [if_neg hl2]
      have hqp : q + p = 2 * l := by rw [hp]; ring
      rw [hd, hqp, hl3]
      norm_num

set_option maxHeartbeats 1000000 in
/-- Feeding a hue in `[0,1)`, a positive saturation and a lightness in
`(0,1)` through the HSL→RGB conversion and back through RGB→HSL recovers
the hue, the saturation and the lightness exactly. -/
lemma hslToRgb_roundtrip (h s l : ℚ) (hh0 : 0 ≤ h) (hh1 : h < 1)
    (hs : 0 < s) (hl0 : 0 < l) (hl1 : l < 1) :
    rgbToHsl3 (hslToRgb h s l) = (h, s, l) := by
  unfold hslToRgb
  rw [if_neg (ne_of_gt hs)]
  set q := if l < 1/2 then l * (1 + s) else l + s - l * s with hq
  set p := 2 * l - q with hp
  have hlq : l < q := by
    rw [hq]
    by_cases hl : l < 1/2
    · rw [if_pos hl]; nlinarith
    · rw [if_neg hl]; nlinarith
  have hpq : p < q := by rw [hp]; linarith
  have hd0 : q - p ≠ 0 := sub_ne_zero.mpr hpq.ne'
  have hlp : (q + p) / 2 = l := by rw [hp]; ring
  have hsat : satRecover p q = s := satRecover_eq s l q p hs hl0 hl1 hq hp
  unfold rgbToHsl3
  dsimp only
  rcases lt_or_le h (1/6) with hA | hA
  · -- sector 1: channels (q, rising, p)
    rw [hueToRgb_plateau p q (h + 1/3) (by linarith) (by linarith),
      hueToRgb_rise p q h hh0 hA,
      hueToRgb_shift_down p q (h - 1/3) (by linarith) (by linarith),
      show h - 1/3 + 1 = h + 2/3 by ring,
      hueToRgb_tail p q (h + 2/3) (by linarith) (by linarith)]
    rw [rgbToHsl_qmp p q (p + (q - p) * 6 * h) hpq (by nlinarith) (by nlinarith)]
    rw [hsat, hlp]
    refine Prod.ext ?_ rfl
    show (p + (q - p) * 6 * h - p) / (q - p) / 6 = h
    field_simp
    try ring
  rcases eq_or_lt_of_le hA with hA1 | hA1
  · -- sector boundary h = 1/6: channels (q, q, p)
    rw [hueToRgb_fall p q (h + 1/3) (by linarith) (by linarith),
      hueToRgb_plateau p q h hA (by linarith),
      hueToRgb_shift_down p q (h - 1/3) (by linarith) (by linarith),
      show h - 1/3 + 1 = h + 2/3 by ring,
      hueToRgb_tail p q (h + 2/3) (by linarith) (by linarith)]
    rw [show p + (q - p) * (2/3 - (h + 1/3)) * 6 = q by rw [← hA1]; ring]
    rw [rgbToHsl_qmp p q q hpq hpq.le le_rfl]
    rw [hsat, hlp]
    refine Prod.ext ?_ rfl
    show (q - p) / (q - p) / 6 = h
    rw [div_self hd0, ← hA1]
    try norm_num
  rcases lt_or_le h (1/3) with hB | hB
  · -- sector 2 interior: channels (falling, q, p)
    rw [hueToRgb_fall p q (h + 1/3) (by linarith) (by linarith),
      hueToRgb_plateau p q h hA (by linarith),
      hueToRgb_shift_down p q (h - 1/3) (by linarith) (by linarith),
      show h - 1/3 + 1 = h + 2/3 by ring,
      hueToRgb_tail p q (h + 2/3) (by linarith) (by linarith)]
    rw [rgbToHsl_mqp p q (p + (q - p) * (2/3 - (h + 1/3)) * 6) hpq
      (by nlinarith) (by nlinarith)]
    rw [hsat, hlp]
    refine Prod.ext ?_ rfl
    show ((p - (p + (q - p) * (2/3 - (h + 1/3)) * 6)) / (q - p) + 2) / 6 = h
    field_simp
    try ring
  rcases lt_or_le h (1/2) with hC | hC
  · -- sector 3: channels (p, q, rising)
    rw [hueToRgb_tail p q (h + 1/3) (by linarith) (by linarith),
      hueToRgb_plateau p q h (by linarith) hC,
      hueToRgb_rise p q (h - 1/3) (by linarith) (by linarith)]
    rw [rgbToHsl_pqm p q (p + (q - p) * 6 * (h - 1/3)) hpq
      (by nlinarith) (by nlinarith)]
    rw [hsat, hlp]
    refine Prod.ext ?_ rfl
    show ((p + (q - p) * 6 * (h - 1/3) - p) / (q - p) + 2) / 6 = h
    field_simp
    try ring
  rcases eq_or_lt_of_le hC with hC1 | hC1
  · -- sector boundary h = 1/2: channels (p, q, q)
    rw [hueToRgb_tail p q (h + 1/3) (by linarith) (by linarith),
      hueToRgb_fall p q h hC (by linarith),
      hueToRgb_plateau p q (h - 1/3) (by linarith) (by linarith)]
    rw [show p + (q - p) * (2/3 - h) * 6 = q by rw [← hC1]; ring]
    rw [rgbToHsl_pqm p q q hpq hpq.le le_rfl]
    rw [hsat, hlp]
    refine Prod.ext ?_ rfl
    show ((q - p) / (q - p) + 2) / 6 = h
    rw [div_self hd0, ← hC1]
    try norm_num
  rcases lt_or_le h (2/3) with hD | hD
  · -- sector 4 interior: channels (p, falling, q)
    rw [hueToRgb_tail p q (h + 1/3) (by linarith) (by linarith),
      hueToRgb_fall p q h hC (by linarith),
      hueToRgb_plateau p q (h - 1/3) (by linarith) (by linarith)]
    rw [rgbToHsl_pmq p q (p + (q - p) * (2/3 - h) * 6) hpq
      (by nlinarith) (by nlinarith)]
    rw [hsat, hlp]
    refine Prod.ext ?_ rfl
    show ((p - (p + (q - p) * (2/3 - h) * 6)) / (q - p) + 4) / 6 = h
    field_simp
    try ring
  rcases lt_or_le h (5/6) with hE | hE
  · -- sector 5: channels (rising, p, q)
    have hR : hueToRgb p q (h + 1/3) = p + (q - p) * 6 * (h - 2/3) := by
      rcases eq_or_lt_of_le hD with hD1 | hD1
      · rw [show h + 1/3 = 1 by rw [← hD1]; norm_num,
          hueToRgb_tail p q 1 (by norm_num) le_rfl, ← hD1]
        ring
      · rw [hueToRgb_shift_up p q (h + 1/3) (by linarith) (by linarith),
          show h + 1/3 - 1 = h - 2/3 by ring,
          hueToRgb_rise p q (h - 2/3) (by linarith) (by linarith)]
    rw [hR, hueToRgb_tail p q h hD (by linarith),
      hueToRgb_plateau p q (h - 1/3) (by linarith) (by linarith)]
    have hs5a : (0:ℚ) ≤ (q - p) * (h - 2/3) :=
      mul_nonneg (by linarith) (by linarith)
    have hs5b : (0:ℚ) < (q - p) * (5/6 - h) :=
      mul_pos (by linarith) (by linarith)
    rw [rgbToHsl_mpq p q (p + (q - p) * 6 * (h - 2/3)) hpq
      (by nlinarith [hs5a]) (by nlinarith [hs5b])]
    rw [hsat, hlp]
    refine Prod.ext ?_ rfl
    show ((p + (q - p) * 6 * (h - 2/3) - p) / (q - p) + 4) / 6 = h
    field_simp
    try ring
  · -- sector 6: channels (q, p, falling)
    rw [hueToRgb_shift_up p q (h + 1/3) (by linarith) (by linarith),
      show h + 1/3 - 1 = h - 2/3 by ring,
      hueToRgb_plateau p q (h - 2/3) (by linarith) (by linarith),
      hueToRgb_tail p q h (by linarith) hh1.le,
      hueToRgb_fall p q (h - 1/3) (by linarith) (by linarith)]
    have hs6a : (0:ℚ) < (q - p) * (1 - h) :=
      mul_pos (by linarith) (by linarith)
    have hs6b : (0:ℚ) ≤ (q - p) * (h - 5/6) :=
      mul_nonneg (by linarith) (by linarith)
    rw [rgbToHsl_qpm p q (p + (q - p) * (2/3 - (h - 1/3)) * 6) hpq
      (by nlinarith [hs6a]) (by nlinarith [hs6b])]
    rw [hsat, hlp]
    refine Prod.ext ?_ rfl
    show ((p - (p + (q - p) * (2/3 - (h - 1/3)) * 6)) / (q - p) + 6) / 6 = h
    field_simp
    try ring

lemma hexVal_le_of_hexDigit (c : Char) (hc : isHexDigitChar c = true) :
    hexVal c ≤ 15 := by
  unfold isHexDigitChar at hc
  unfold hexVal
  simp only [Bool.or_eq_true, Bool.and_eq_true, decide_eq_true_eq] at hc
  split_ifs <;> omega

lemma parseHexColor_le (str : String) (r g b : ℕ)
    (hp : parseHexColor str = some (r, g, b)) :
    r ≤ 255 ∧ g ≤ 255 ∧ b ≤ 255 := by
  unfold parseHexColor at hp
  dsimp only at hp
  split at hp
  · rename_i hm
    split at hp
    · rename_i c1 c2 c3 c4 c5 c6 hlist
      unfold matchesHex6 at hm
      rw [hlist] at hm
      simp only [Bool.and_eq_true, List.all_cons, List.all_nil] at hm
      obtain ⟨-, d1, d2, d3, d4, d5, d6, -⟩ := hm
      have b1 := hexVal_le_of_hexDigit c1 d1
      have b2 := hexVal_le_of_hexDigit c2 d2
      have b3 := hexVal_le_of_hexDigit c3 d3
      have b4 := hexVal_le_of_hexDigit c4 d4
      have b5 := hexVal_le_of_hexDigit c5 d5
      have b6 := hexVal_le_of_hexDigit c6 d6
      simp only [Option.some.injEq, Prod.mk.injEq] at hp
      omega
    · exact absurd hp (by simp)
  · exact absurd hp (by simp)

lemma eq_of_max_eq_min (r g b : ℚ) (h : max r (max g b) = min r (min g b)) :
    r = g ∧ g = b := by
  have h1 : min r (min g b) ≤ r := min_le_left _ _
  have h2 : r ≤ max r (max g b) := le_max_left _ _
  have h3 : min r (min g b) ≤ g := (min_le_right r _).trans (min_le_left g b)
  have h4 : g ≤ max r (max g b) := (le_max_left g b).trans (le_max_right r _)
  have h5 : min r (min g b) ≤ b := (min_le_right r _).trans (min_le_right g b)
  have h6 : b ≤ max r (max g b) := (le_max_right g b).trans (le_max_right r _)
  constructor <;> linarith

/-- On a non-achromatic triple, the hue `rgbToHsl` computes lies in `[0,1)`. -/
lemma rgbToHsl_hue_mem (r g b : ℚ)
    (hne : max r (max g b) ≠ min r (min g b)) :
    0 ≤ (rgbToHsl r g b).1 ∧ (rgbToHsl r g b).1 < 1 := by
  have h1 : min r (min g b) ≤ r := min_le_left _ _
  have h2 : r ≤ max r (max g b) := le_max_left _ _
  have h3 : min r (min g b) ≤ g := (min_le_right r _).trans (min_le_left g b)
  have h4 : g ≤ max r (max g b) := (le_max_left g b).trans (le_max_right r _)
  have h5 : min r (min g b) ≤ b := (min_le_right r _).trans (min_le_right g b)
  have h6 : b ≤ max r (max g b) := (le_max_right g b).trans (le_max_right r _)
  have hd : 0 < max r (max g b) - min r (min g b) := by
    rcases lt_or_eq_of_le (h1.trans h2) with hlt | heq
    · linarith
    · exact absurd heq.symm hne
  unfold rgbToHsl
  dsimp only
  rw [if_neg hne]
  dsimp only
  have key : ∀ v : ℚ, 0 ≤ v → v < 6 → 0 ≤ v / 6 ∧ v / 6 < 1 := fun v hv0 hv6 =>
    ⟨div_nonneg hv0 (by norm_num), (div_lt_one (by norm_num)).mpr (by linarith)⟩
  split_ifs with hr hgb hg hb
  · -- max = r, g < b
    refine key _ ?_ ?_
    · have : (-1 : ℚ) ≤ (g - b) / (max r (max g b) - min r (min g b)) := by
        rw [le_div_iff hd]; rw [hr] at h6 ⊢; linarith
      linarith
    · have : (g - b) / (max r (max g b) - min r (min g b)) < 0 :=
        div_neg_of_neg_of_pos (by linarith) hd
      linarith
  · -- max = r, g ≥ b
    refine key _ ?_ ?_
    · have : 0 ≤ (g - b) / (max r (max g b) - min r (min g b)) :=
        div_nonneg (by linarith) hd.le
      linarith
    · have : (g - b) / (max r (max g b) - min r (min g b)) ≤ 1 := by
        rw [div_le_one hd]; linarith
      linarith
  · -- max = g
    refine key _ ?_ ?_
    · have : (-1 : ℚ) ≤ (b - r) / (max r (max g b) - min r (min g b)) := by
        rw [le_div_iff hd]; linarith
      linarith
    · have : (b - r) / (max r (max g b) - min r (min g b)) ≤ 1 := by
        rw [div_le_one hd]; linarith
      linarith
  · -- max = b
    refine key _ ?_ ?_
    · have : (-1 : ℚ) ≤ (r - g) / (max r (max g b) - min r (min g b)) := by
        rw [le_div_iff hd]; linarith
      linarith
    · have : (r - g) / (max r (max g b) - min r (min g b)) ≤ 1 := by
        rw [div_le_one hd]; linarith
      linarith
  · -- impossible: the maximum is one of the channels
    exfalso
    rcases max_choice r (max g b) with hc | hc
    · exact hr hc
    · rcases max_choice g b with hc2 | hc2
      · exact hg (hc.trans hc2)
      · exact hb (hc.trans hc2)

/-- On a non-achromatic triple of channels in `[0,1]`, the saturation
`rgbToHsl` computes is positive. -/
lemma rgbToHsl_sat_pos (r g b : ℚ) (h0 : 0 ≤ r) (h1 : 0 ≤ g) (h2 : 0 ≤ b)
    (h3 : r ≤ 1) (h4 : g ≤ 1) (h5 : b ≤ 1)
    (hne : max r (max g b) ≠ min r (min g b)) :
    0 < (rgbToHsl r g b).2.1 := by
  have hmx1 : max r (max g b) ≤ 1 := max_le h3 (max_le h4 h5)
  have hmn0 : 0 ≤ min r (min g b) := le_min h0 (le_min h1 h2)
  have hlt : min r (min g b) < max r (max g b) :=
    lt_of_le_of_ne ((min_le_left r _).trans (le_max_left r _)) (Ne.symm hne)
  unfold rgbToHsl
  dsimp only
  rw [if_neg hne]
  dsimp only
  split_ifs with hl
  · exact div_pos (by linarith) (by linarith)
  · exact div_pos (by linarith) (by linarith)

lemma rgbToHsl_achromatic (x : ℚ) : rgbToHsl x x x = (0, 0, x) := by
  unfold rgbToHsl
  simp

lemma hslToRgb_zero_sat (h l : ℚ) : hslToRgb h 0 l = (l, l, l) := by
  unfold hslToRgb
  simp

/-- C6 counterexample: at shade `0` (an endpoint of the claimed range
`[0,100]`) the adjusted color of pure red collapses to black, whose
implied saturation is `0` while the input's implied saturation is `1` —
a full-scale deviation, not a rounding tolerance. -/
theorem claim_C6_counterexample :
    parseHexColor "#ff0000" = some (255, 0, 0) ∧
    (rgbToHsl ((255 : ℚ) / 255) (0 / 255) (0 / 255)).2.1 = 1 ∧
    adjustColorBrightness "#ff0000" 0 = "#000000" ∧
    parseHexColor "#000000" = some (0, 0, 0) ∧
    (rgbToHsl ((0 : ℚ) / 255) (0 / 255) (0 / 255)).2.1 = 0 := by
  have hparse : parseHexColor "#ff0000" = some (255, 0, 0) := by decide
  have hadj : adjustColorBrightness "#ff0000" 0 = "#000000" := by
    unfold adjustColorBrightness
    rw [hparse]
    dsimp only
    have e1 : ((255 : ℕ) : ℚ) / 255 = 1 := by norm_num
    have e2 : ((0 : ℕ) : ℚ) / 255 = 0 := by norm_num
    rw [e1, e2]
    have hhsl : rgbToHsl 1 0 0 = (0, 1, 1/2) := by norm_num [rgbToHsl]
    rw [hhsl]
    have hrgb : hslToRgb 0 1 (0 / 100) = (0, 0, 0) := by
      norm_num [hslToRgb, hueToRgb]
    rw [hrgb]
    have hhex : toHex 0 = "00" := by
      unfold toHex
      have : jsRound (0 * 255) = 0 := by norm_num [jsRound]
      rw [this]
      rfl
    rw [hhex]
    decide
  exact ⟨hparse, by norm_num [rgbToHsl], hadj, by decide, by norm_num [rgbToHsl]⟩

/-- C6 (amended): for every valid 6-hex-digit color and a shade strictly
inside `(0,100)`, the exact channel triple `adjustColorBrightness`
serializes (before per-channel byte rounding) has implied hue and
saturation exactly those of the input color, and implied lightness
exactly `shade/100` — the input's lightness is replaced, not blended.
For an achromatic input both implied hue and saturation are `0` and are
reproduced as such. -/
theorem claim_C6_hue_sat_preserved_exact (str : String) (shade : ℚ) (r g b : ℕ)
    (hp : parseHexColor str = some (r, g, b))
    (h0 : 0 < shade) (h1 : shade < 100) :
    rgbToHsl3 (hslToRgb (rgbToHsl ((r : ℚ) / 255) ((g : ℚ) / 255) ((b : ℚ) / 255)).1
        (rgbToHsl ((r : ℚ) / 255) ((g : ℚ) / 255) ((b : ℚ) / 255)).2.1 (shade / 100)) =
      ((rgbToHsl ((r : ℚ) / 255) ((g : ℚ) / 255) ((b : ℚ) / 255)).1,
       (rgbToHsl ((r : ℚ) / 255) ((g : ℚ) / 255) ((b : ℚ) / 255)).2.1, shade / 100) ∧
    adjustColorBrightness str shade =
      "#" ++ toHex (hslToRgb (rgbToHsl ((r : ℚ) / 255) ((g : ℚ) / 255) ((b : ℚ) / 255)).1
          (rgbToHsl ((r : ℚ) / 255) ((g : ℚ) / 255) ((b : ℚ) / 255)).2.1 (shade / 100)).1
        ++ toHex (hslToRgb (rgbToHsl ((r : ℚ) / 255) ((g : ℚ) / 255) ((b : ℚ) / 255)).1
          (rgbToHsl ((r : ℚ) / 255) ((g : ℚ) / 255) ((b : ℚ) / 255)).2.1 (shade / 100)).2.1
        ++ toHex (hslToRgb (rgbToHsl ((r : ℚ) / 255) ((g : ℚ) / 255) ((b : ℚ) / 255)).1
          (rgbToHsl ((r : ℚ) / 255) ((g : ℚ) / 255) ((b : ℚ) / 255)).2.1 (shade / 100)).2.2 := by
  constructor
  · by_cases hac : (r : ℚ) / 255 = (g : ℚ) / 255 ∧ (g : ℚ) / 255 = (b : ℚ) / 255
    · -- achromatic input: hue 0 and saturation 0 are reproduced exactly
      obtain ⟨e1, e2⟩ := hac
      rw [← e2, ← e1, rgbToHsl_achromatic]
      dsimp only
      rw [hslToRgb_zero_sat]
      unfold rgbToHsl3
      dsimp only
      rw [rgbToHsl_achromatic]
    · -- chromatic input: the full round-trip identity applies
      obtain ⟨hr255, hg255, hb255⟩ := parseHexColor_le str r g b hp
      have hx0 : (0 : ℚ) ≤ (r : ℚ) / 255 := by positivity
      have hy0 : (0 : ℚ) ≤ (g : ℚ) / 255 := by positivity
      have hz0 : (0 : ℚ) ≤ (b : ℚ) / 255 := by positivity
      have hx1 : (r : ℚ) / 255 ≤ 1 := by
        rw [div_le_one (by norm_num)]; exact_mod_cast hr255
      have hy1 : (g : ℚ) / 255 ≤ 1 := by
        rw [div_le_one (by norm_num)]; exact_mod_cast hg255
      have hz1 : (b : ℚ) / 255 ≤ 1 := by
        rw [div_le_one (by norm_num)]; exact_mod_cast hb255
      have hne : max ((r : ℚ) / 255) (max ((g : ℚ) / 255) ((b : ℚ) / 255)) ≠
          min ((r : ℚ) / 255) (min ((g : ℚ) / 255) ((b : ℚ) / 255)) :=
        fun hcontra => hac (eq_of_max_eq_min _ _ _ hcontra)
      have hhue := rgbToHsl_hue_mem ((r : ℚ) / 255) ((g : ℚ) / 255) ((b : ℚ) / 255) hne
      have hsat := rgbToHsl_sat_pos ((r : ℚ) / 255) ((g : ℚ) / 255) ((b : ℚ) / 255)
        hx0 hy0 hz0 hx1 hy1 hz1 hne
      exact hslToRgb_roundtrip _ _ _ hhue.1 hhue.2 hsat
        (div_pos h0 (by norm_num)) ((div_lt_one (by norm_num)).mpr h1)
  · unfold adjustColorBrightness
    rw [hp]

theorem claim_C6_hue_sat_preserved_exact_witness :
    parseHexColor "#ff8800" = some (255, 136, 0) ∧
    (rgbToHsl3 (hslToRgb (rgbToHsl (((255 : ℕ) : ℚ) / 255) (((136 : ℕ) : ℚ) / 255)
          (((0 : ℕ) : ℚ) / 255)).1
        (rgbToHsl (((255 : ℕ) : ℚ) / 255) (((136 : ℕ) : ℚ) / 255)
          (((0 : ℕ) : ℚ) / 255)).2.1 ((50 : ℚ) / 100)) =
      ((rgbToHsl (((255 : ℕ) : ℚ) / 255) (((136 : ℕ) : ℚ) / 255) (((0 : ℕ) : ℚ) / 255)).1,
       (rgbToHsl (((255 : ℕ) : ℚ) / 255) (((136 : ℕ) : ℚ) / 255) (((0 : ℕ) : ℚ) / 255)).2.1,
       (50 : ℚ) / 100) ∧
    adjustColorBrightness "#ff8800" 50 =
      "#" ++ toHex (hslToRgb (rgbToHsl (((255 : ℕ) : ℚ) / 255) (((136 : ℕ) : ℚ) / 255)
            (((0 : ℕ) : ℚ) / 255)).1
          (rgbToHsl (((255 : ℕ) : ℚ) / 255) (((136 : ℕ) : ℚ) / 255)
            (((0 : ℕ) : ℚ) / 255)).2.1 ((50 : ℚ) / 100)).1
        ++ toHex (hslToRgb (rgbToHsl (((255 : ℕ) : ℚ) / 255) (((136 : ℕ) : ℚ) / 255)
            (((0 : ℕ) : ℚ) / 255)).1
          (rgbToHsl (((255 : ℕ) : ℚ) / 255) (((136 : ℕ) : ℚ) / 255)
            (((0 : ℕ) : ℚ) / 255)).2.1 ((50 : ℚ) / 100)).2.1
        ++ toHex (hslToRgb (rgbToHsl (((255 : ℕ) : ℚ) / 255) (((136 : ℕ) : ℚ) / 255)
            (((0 : ℕ) : ℚ) / 255)).1
          (rgbToHsl (((255 : ℕ) : ℚ) / 255) (((136 : ℕ) : ℚ) / 255)
            (((0 : ℕ) : ℚ) / 255)).2.1 ((50 : ℚ) / 100)).2.2) :=
  ⟨by decide, claim_C6_hue_sat_preserved_exact "#ff8800" 50 255 136 0 (by decide)
    (by norm_num) (by norm_num)⟩

/-- C5: `adjustColorBrightness` is total, and on any input string whose
`#`-stripped form fails the 6-hex-digit test it returns the input
unchanged, for every shade. -/
theorem claim_C5_invalid_hex_passthrough (str : String) (shade : ℚ)
    (h : matchesHex6 (cleanHexOf str) = false) :
    adjustColorBrightness str shade = str := by
  unfold adjustColorBrightness parseHexColor
  simp [h]

theorem claim_C5_invalid_hex_passthrough_witness :
    matchesHex6 (cleanHexOf "#bluish") = false ∧
      adjustColorBrightness "#bluish" 37 = "#bluish" :=
  ⟨by decide, claim_C5_invalid_hex_passthrough "#bluish" 37 (by decide)⟩

/-- One character of the class `[0-9a-f]`: what JS `toString(16)` emits. -/
def isLowerHexChar (c : Char) : Bool :=
  (48 ≤ c.toNat && c.toNat ≤ 57) || (97 ≤ c.toNat && c.toNat ≤ 102)

/-- Read back the value of a two-hex-digit string. -/
def hexVal2 (s : String) : ℕ :=
  match s.data with
  | [a, b] => 16 * hexVal a + hexVal b
  | _ => 0

lemma digitChar_lower_hex : ∀ n : ℕ, n < 16 → isLowerHexChar (Nat.digitChar n) = true := by
  decide

lemma hexVal_digitChar : ∀ n : ℕ, n < 16 → hexVal (Nat.digitChar n) = n := by
  decide

/-- For a channel value rounding to a byte, `toHex` is the two lowercase
hex digits of that byte. -/
lemma toHex_eq_pair (c : ℚ) (hn : (jsRound (c * 255)).toNat ≤ 255) :
    toHex c = String.mk [Nat.digitChar ((jsRound (c * 255)).toNat / 16),
      Nat.digitChar ((jsRound (c * 255)).toNat % 16)] := by
  unfold toHex jsHexString
  by_cases h : (jsRound (c * 255)).toNat < 16
  · have h16 : (jsRound (c * 255)).toNat / 16 = 0 := by omega
    have hm : (jsRound (c * 255)).toNat % 16 = (jsRound (c * 255)).toNat := by omega
    simp only [h, if_true, h16, hm]
    have hlen : (String.mk [Nat.digitChar (jsRound (c * 255)).toNat]).length = 1 := rfl
    rw [if_pos hlen]
    rfl
  · simp only [h, if_false]
    have hlen : (String.mk [Nat.digitChar ((jsRound (c * 255)).toNat / 16),
        Nat.digitChar ((jsRound (c * 255)).toNat % 16)]).length = 2 := rfl
    rw [if_neg (by rw [hlen]; omega)]

lemma jsRound_byte_bound (x : ℚ) (h0 : 0 ≤ x) (h1 : x ≤ 1) :
    (jsRound (x * 255)).toNat ≤ 255 := by
  rw [Int.toNat_le]
  unfold jsRound
  have : x * 255 + 1/2 ≤ 255 + 1/2 := by linarith
  calc ⌊x * 255 + 1/2⌋ ≤ ⌊(255 : ℚ) + 1/2⌋ := Int.floor_le_floor this
    _ = 255 := by norm_num [Int.floor_eq_iff]

/-- C7: on a valid achromatic color (all three channel bytes equal) and a
shade in `[0,100]`, `adjustColorBrightness` returns an achromatic color:
one two-digit lowercase hex block, of value `round(shade/100 * 255)`,
replicated across the three channels and prefixed with `#`. -/
theorem claim_C7_achromatic_shade (str : String) (shade : ℚ) (v : ℕ)
    (hp : parseHexColor str = some (v, v, v)) (h0 : 0 ≤ shade) (h1 : shade ≤ 100) :
    adjustColorBrightness str shade =
      "#" ++ toHex (shade / 100) ++ toHex (shade / 100) ++ toHex (shade / 100) ∧
    (toHex (shade / 100)).length = 2 ∧
    (toHex (shade / 100)).data.all isLowerHexChar = true ∧
    hexVal2 (toHex (shade / 100)) = (jsRound (shade / 100 * 255)).toNat := by
  have hb : (jsRound (shade / 100 * 255)).toNat ≤ 255 :=
    jsRound_byte_bound (shade / 100) (by positivity) (by linarith)
  have hpair := toHex_eq_pair (shade / 100) hb
  refine ⟨?_, ?_, ?_, ?_⟩
  · unfold adjustColorBrightness
    rw [hp]
    simp only [rgbToHsl_achromatic, hslToRgb_zero_sat]
  · rw [hpair]; rfl
  · rw [hpair]
    simp only [List.all, String.data]
    rw [digitChar_lower_hex _ (by omega), digitChar_lower_hex _ (by omega)]
    rfl
  · rw [hpair]
    unfold hexVal2
    simp only [String.data]
    rw [hexVal_digitChar _ (by omega), hexVal_digitChar _ (by omega)]
    omega

theorem claim_C7_achromatic_shade_witness :
    parseHexColor "#707070" = some (112, 112, 112) ∧ (0 : ℚ) ≤ 40 ∧ (40 : ℚ) ≤ 100 ∧
      (adjustColorBrightness "#707070" 40 =
        "#" ++ toHex (40 / 100) ++ toHex (40 / 100) ++ toHex (40 / 100) ∧
      (toHex ((40 : ℚ) / 100)).length = 2 ∧
      (toHex ((40 : ℚ) / 100)).data.all isLowerHexChar = true ∧
      hexVal2 (toHex ((40 : ℚ) / 100)) = (jsRound ((40 : ℚ) / 100 * 255)).toNat) :=
  ⟨by decide, by norm_num, by norm_num,
    claim_C7_achromatic_shade "#707070" 40 112 (by decide) (by norm_num) (by norm_num)⟩

/-! ## Scene data model (DesignCanvas.js JSX components) -/

structure Vec3 where
  x : ℚ
  y : ℚ
  z : ℚ
deriving DecidableEq

/-- A `meshStandardMaterial` element: only the props the source sets. -/
structure Material where
  map : Option String
  color : String
  roughness : Option ℚ
  metalness : Option ℚ
  emissive : Option String
  emissiveIntensity : Option ℚ
deriving DecidableEq

/-- The geometry elements the furniture builders use. -/
inductive Geom where
  | box (w h d : ℚ)
  | cylinder (rTop rBot h : ℚ) (seg : ℕ)
  | cone (r h : ℚ) (seg : ℕ)
  | sphere (r : ℚ) (seg1 seg2 : ℕ)
deriving DecidableEq

structure Mesh where
  geom : Geom
  position : Vec3
  material : Material
deriving DecidableEq

/-- A builder's root `<group position scale>` element: the JSX sets no
`userData` prop on it, so its userData stays empty (`none`). -/
structure FurnGroup where
  position : Vec3
  scale : ℚ
  userData : Option String
  meshes : List Mesh
deriving DecidableEq

/-- A furniture descriptor: every numeric or string field the builders
read may be absent (`undefined` in JS). -/
structure Item where
  id : String
  type : String
  x : Option ℚ
  z : Option ℚ
  scale : Option ℚ
  color : Option String
  shade : Option ℚ
deriving DecidableEq

/-- `Chair` (source lines 123-158). -/
def buildChair (item : Item) (roomHeight : ℚ) : FurnGroup :=
  let color := adjustColorBrightness (jsOrStr item.color "#8B4513") (jsOrQ item.shade 50)
  let mat : Material := ⟨some "wood_025_diff_1k.jpg", color, some 0.7, none, none, none⟩
  { position := ⟨jsOrQ item.x 0, -roomHeight / 2, jsOrQ item.z 0⟩
    scale := jsOrQ item.scale 1
    userData := none
    meshes :=
      [⟨.box 1 0.1 1, ⟨0, 0.5, 0⟩, mat⟩,
       ⟨.box 1 0.8 0.1, ⟨0, 1.2, -0.4⟩, mat⟩,
       ⟨.cylinder 0.05 0.05 0.5 16, ⟨-0.4, 0.25, -0.4⟩, mat⟩,
       ⟨.cylinder 0.05 0.05 0.5 16, ⟨-0.4, 0.25, 0.4⟩, mat⟩,
       ⟨.cylinder 0.05 0.05 0.5 16, ⟨0.4, 0.25, -0.4⟩, mat⟩,
       ⟨.cylinder 0.05 0.05 0.5 16, ⟨0.4, 0.25, 0.4⟩, mat⟩] }

/-- `Table` (source lines 160-191). -/
def buildTable (item : Item) (roomHeight : ℚ) : FurnGroup :=
  let color := adjustColorBrightness (jsOrStr item.color "#8B4513") (jsOrQ item.shade 50)
  let mat : Material := ⟨some "wood_025_diff_1k.jpg", color, some 0.7, none, none, none⟩
  { position := ⟨jsOrQ item.x 0, -roomHeight / 2, jsOrQ item.z 0⟩
    scale := jsOrQ item.scale 1
    userData := none
    meshes :=
      [⟨.box 2 0.2 1.5, ⟨0, 0.8, 0⟩, mat⟩,
       ⟨.cylinder 0.05 0.05 0.8 16, ⟨-0.9, 0.4, -0.65⟩, mat⟩,
       ⟨.cylinder 0.05 0.05 0.8 16, ⟨-0.9, 0.4, 0.65⟩, mat⟩,
       ⟨.cylinder 0.05 0.05 0.8 16, ⟨0.9, 0.4, -0.65⟩, mat⟩,
       ⟨.cylinder 0.05 0.05 0.8 16, ⟨0.9, 0.4, 0.65⟩, mat⟩] }

/-- `Sofa` (source lines 193-220). -/
def buildSofa (item : Item) (roomHeight : ℚ) : FurnGroup :=
  let color := adjustColorBrightness (jsOrStr item.color "#4B0082") (jsOrQ item.shade 30)
  let mat : Material := ⟨some "fabric_001_diff_1k.jpg", color, some 0.8, none, none, none⟩
  { position := ⟨jsOrQ item.x 0, -roomHeight / 2, jsOrQ item.z 0⟩
    scale := jsOrQ item.scale 1
    userData := none
    meshes :=
      [⟨.box 3 0.5 1, ⟨0, 0.5, 0⟩, mat⟩,
       ⟨.box 3 1 0.2, ⟨0, 1, -0.4⟩, mat⟩,
       ⟨.box 0.4 0.5 1, ⟨-1.3, 0.75, 0⟩, mat⟩,
       ⟨.box 0.4 0.5 1, ⟨1.3, 0.75, 0⟩, mat⟩] }

/-- `Bookshelf` (source lines 222-245). -/
def buildBookshelf (item : Item) (roomHeight : ℚ) : FurnGroup :=
  let color := adjustColorBrightness (jsOrStr item.color "#8B4513") (jsOrQ item.shade 50)
  let mat : Material := ⟨some "wood_025_diff_1k.jpg", color, some 0.7, none, none, none⟩
  { position := ⟨jsOrQ item.x 0, -roomHeight / 2, jsOrQ item.z 0⟩
    scale := jsOrQ item.scale 1
    userData := none
    meshes :=
      [⟨.box 2 2 0.5, ⟨0, 1, 0⟩, mat⟩,
       ⟨.box 2 0.1 0.5, ⟨0, 0.5, 0⟩, mat⟩,
       ⟨.box 2 0.1 0.5, ⟨0, 1.5, 0⟩, mat⟩] }

/-- `TVStand` (source lines 247-266). -/
def buildTVStand (item : Item) (roomHeight : ℚ) : FurnGroup :=
  let color := adjustColorBrightness (jsOrStr item.color "#2F4F4F") (jsOrQ item.shade 50)
  let mat : Material := ⟨some "wood_025_diff_1k.jpg", color, some 0.7, none, none, none⟩
  { position := ⟨jsOrQ item.x 0, -roomHeight / 2, jsOrQ item.z 0⟩
    scale := jsOrQ item.scale 1
    userData := none
    meshes :=
      [⟨.box 3 0.8 0.8, ⟨0, 0.5, 0⟩, mat⟩,
       ⟨.box 3 0.1 0.8, ⟨0, 0.2, 0⟩, mat⟩] }

/-- `Bed` (source lines 268-303). -/
def buildBed (item : Item) (roomHeight : ℚ) : FurnGroup :=
  let color := adjustColorBrightness (jsOrStr item.color "#4682B4") (jsOrQ item.shade 30)
  let mat : Material := ⟨some "fabric_001_diff_1k.jpg", color, some 0.8, none, none, none⟩
  { position := ⟨jsOrQ item.x 0, -roomHeight / 2, jsOrQ item.z 0⟩
    scale := jsOrQ item.scale 1
    userData := none
    meshes :=
      [⟨.box 2.5 0.4 4, ⟨0, 0.4, 0⟩, mat⟩,
       ⟨.box 2.5 0.6 0.4, ⟨0, 0.8, -1.8⟩, mat⟩,
       ⟨.cylinder 0.1 0.1 0.4 16, ⟨-1.1, 0.2, -1.8⟩, mat⟩,
       ⟨.cylinder 0.1 0.1 0.4 16, ⟨1.1, 0.2, -1.8⟩, mat⟩,
       ⟨.cylinder 0.1 0.1 0.4 16, ⟨-1.1, 0.2, 1.8⟩, mat⟩,
       ⟨.cylinder 0.1 0.1 0.4 16, ⟨1.1, 0.2, 1.8⟩, mat⟩] }

/-- `Lamp` (source lines 305-328); the bulb sphere keeps its fixed warm
emissive material and ignores the adjusted color. -/
def buildLamp (item : Item) (roomHeight : ℚ) : FurnGroup :=
  let color := adjustColorBrightness (jsOrStr item.color "#FFD700") (jsOrQ item.shade 70)
  let mat : Material := ⟨some "metal_001_diff_1k.jpg", color, some 0.6, some 0.8, none, none⟩
  let bulbMat : Material := ⟨none, "#ffffe0", none, none, some "#ffffe0", some 0.8⟩
  { position := ⟨jsOrQ item.x 0, -roomHeight / 2, jsOrQ item.z 0⟩
    scale := jsOrQ item.scale 1
    userData := none
    meshes :=
      [⟨.cylinder 0.2 0.2 1 16, ⟨0, 0.5, 0⟩, mat⟩,
       ⟨.cone 0.4 0.6 16, ⟨0, 1.2, 0⟩, mat⟩,
       ⟨.sphere 0.2 16 16, ⟨0, 1.5, 0⟩, bulbMat⟩] }

/-- The per-item type dispatch of `Scene` (source lines 453-461): each
tag renders its builder inside the keyed group; an unmatched tag renders
no composition. -/
def renderItem (item : Item) (roomHeight : ℚ) : Option FurnGroup :=
  if item.type = "chair" then some (buildChair item roomHeight)
  else if item.type = "table" then some (buildTable item roomHeight)
  else if item.type = "sofa" then some (buildSofa item roomHeight)
  else if item.type = "bookshelf" then some (buildBookshelf item roomHeight)
  else if item.type = "tvstand" then some (buildTVStand item roomHeight)
  else if item.type = "bed" then some (buildBed item roomHeight)
  else if item.type = "lamp" then some (buildLamp item roomHeight)
  else none

/-- `furniture.map(...)` of `Scene` (source line 452): each descriptor is
rendered independently. -/
def sceneChildren (furniture : List Item) (roomHeight : ℚ) : List (Option FurnGroup) :=
  furniture.map (fun it => renderItem it roomHeight)

/-! ## Picking and dragging (Scene event handlers) -/

/-- The outer keyed `<group ref userData={{id: item.id}}>` wrapping each
rendered furniture composition (source line 453). -/
structure OuterGroup where
  userData : Option String
  child : Option FurnGroup
deriving DecidableEq

def buildSceneGraph (furniture : List Item) (roomHeight : ℚ) : List OuterGroup :=
  furniture.map (fun it => ⟨some it.id, renderItem it roomHeight⟩)

/-- One raycast intersection record: `object` is the hit mesh, and
`parentUserData` is `object.parent.userData.id` — the userData of the
mesh's direct parent in the scene graph. -/
structure Hit where
  object : Mesh
  parentUserData : Option String
deriving DecidableEq

/-- All meshes `raycaster.intersectObjects(refs, true)` can hit: the
meshes live inside each builder's inner group, so a hit's
`object.parent` is that inner group, not the outer id-carrying group
(which is the mesh's grandparent). -/
def pickableHits (scene : List OuterGroup) : List Hit :=
  scene.bind fun o =>
    match o.child with
    | some g => g.meshes.map (fun m => ⟨m, g.userData⟩)
    | none => []

/-- `furniture.findIndex((item) => item.id === hitId)` (source line 378):
comparing a string id with `undefined` is always false. -/
def jsFindIndexById (furniture : List Item) (hitId : Option String) : Option ℕ :=
  match hitId with
  | some uid => furniture.findIdx? (fun it => it.id == uid)
  | none => none

/-- `handleMouseDown` (source lines 365-385), selection logic: on a hit,
resolve `intersects[0].object.parent.userData.id` against the furniture
ids; set the selection only when the index resolves (`index !== -1`),
otherwise leave it unchanged.  On no hit, clear the selection. -/
def handleMouseDown (furniture : List Item) (intersects : List Hit)
    (selected : Option ℕ) : Option ℕ :=
  match intersects with
  | [] => none
  | hit :: _ =>
    match jsFindIndexById furniture hit.parentUserData with
    | some i => some i
    | none => selected

/-! ## Ray-plane intersection (three.js `Plane` and `Ray`) -/

/-- A three.js `Plane(normal, constant)`: the points `p` with
`normal ∙ p + constant = 0`. -/
structure Plane3 where
  normal : Vec3
  constant : ℚ
deriving DecidableEq

def dot3 (a b : Vec3) : ℚ := a.x * b.x + a.y * b.y + a.z * b.z

/-- three.js `Plane.distanceToPoint`. -/
def planeDistanceToPoint (pl : Plane3) (p : Vec3) : ℚ :=
  dot3 pl.normal p + pl.constant

structure Ray3 where
  origin : Vec3
  direction : Vec3
deriving DecidableEq

/-- three.js `Ray.distanceToPlane`: `none` when the ray is parallel to
the plane (unless it lies in it) or the intersection is behind the
origin. -/
def rayDistanceToPlane (ray : Ray3) (pl : Plane3) : Option ℚ :=
  let denom := dot3 pl.normal ray.direction
  if denom = 0 then
    if planeDistanceToPoint pl ray.origin = 0 then some 0 else none
  else
    let t := -(dot3 ray.origin pl.normal + pl.constant) / denom
    if 0 ≤ t then some t else none

def rayPointAt (ray : Ray3) (t : ℚ) : Vec3 :=
  ⟨ray.origin.x + t * ray.direction.x, ray.origin.y + t * ray.direction.y,
   ray.origin.z + t * ray.direction.z⟩

/-- three.js `Ray.intersectPlane`. -/
def intersectPlane (ray : Ray3) (pl : Plane3) : Option Vec3 :=
  (rayDistanceToPlane ray pl).map (rayPointAt ray)

/-- The drag plane the controller constructs (source line 334):
`new THREE.Plane(new THREE.Vector3(0, 1, 0), -room.height / 2)`. -/
def dragPlane (roomHeight : ℚ) : Plane3 := ⟨⟨0, 1, 0⟩, -roomHeight / 2⟩

/-- Modelled from the spec: the horizontal plane at the floor height
`y = -height/2` of section 4.5; in the `normal ∙ p + constant = 0`
representation its constant is `+height/2`. -/
def floorPlaneSpec (roomHeight : ℚ) : Plane3 := ⟨⟨0, 1, 0⟩, roomHeight / 2⟩

/-- `handleMouseMove` (source lines 387-399): while a selection is held,
re-cast the pointer ray, intersect it with the drag plane, and report
`(selected, point.x, point.z)` to `onUpdateFurniture`; report nothing
when there is no selection or no intersection. -/
def handleMouseMove (selected : Option ℕ) (roomHeight : ℚ) (ray : Ray3) :
    Option (ℕ × ℚ × ℚ) :=
  match selected with
  | none => none
  | some i =>
    match intersectPlane ray (dragPlane roomHeight) with
    | none => none
    | some point => some (i, point.x, point.z)

/-! ## Camera / view-mode state (Scene viewMode effect and cameras) -/

structure CameraPose where
  position : Vec3
  target : Vec3
deriving DecidableEq

structure ControlFlags where
  enableRotate : Bool
  enableZoom : Bool
  enablePan : Bool
deriving DecidableEq

/-- The `viewMode` effect (source lines 343-363): on every mode value it
unconditionally repositions the camera and reconfigures the orbit
controls; the previous pose and flags are not consulted. -/
def applyViewModeEffect (viewMode : String) (_cam : CameraPose)
    (_ctrl : ControlFlags) : CameraPose × ControlFlags :=
  if viewMode = "2D" then
    (⟨⟨0, 10, 0⟩, ⟨0, 0, 0⟩⟩, ⟨false, true, true⟩)
  else
    (⟨⟨10, 10, 10⟩, ⟨0, 0, 0⟩⟩, ⟨true, true, true⟩)

structure OrthoCameraParams where
  position : Vec3
  zoomFactor : ℚ
  left : ℚ
  right : ℚ
  top : ℚ
  bottom : ℚ
  near : ℚ
  far : ℚ
deriving DecidableEq

/-- `room` prop: every field may be absent; `Room` substitutes defaults,
`Scene` reads `width`/`depth` raw. -/
structure RoomSpec where
  width : Option ℚ
  height : Option ℚ
  depth : Option ℚ
  color : Option String
  wallTexture : Option String
deriving DecidableEq

/-- `const zoom = Math.max(room.width, room.depth) * 1.5` (source line
418); absent dimensions would give NaN in JS, modelled `none`. -/
def sceneZoom (room : RoomSpec) : Option ℚ :=
  match room.width, room.depth with
  | some w, some d => some (max w d * 1.5)
  | _, _ => none

/-- The `<OrthographicCamera>` of the `'2D'` branch (source lines
422-433). -/
def topDownCamera (zoom : ℚ) : OrthoCameraParams :=
  ⟨⟨0, 10, 0⟩, 50, -zoom, zoom, zoom, -zoom, 0.1, 100⟩

/-- Half-width of the orthographic frustum: the visible extent the spec
derives. -/
def visibleHalfExtent (c : OrthoCameraParams) : ℚ := (c.right - c.left) / 2

/-! ## Room shell (`Room`, source lines 77-121) -/

/-- One wall/floor/ceiling plane: size of its `planeGeometry`, its
position, and its rotation in quarter turns (the source's radian
literals are all multiples of `π/2`: `-π/2 ↦ -1`, `π/2 ↦ 1`, `π ↦ 2`). -/
structure Surface where
  size : ℚ × ℚ
  position : Vec3
  rotXQ : ℤ
  rotYQ : ℤ
deriving DecidableEq

structure RoomShell where
  floor : Surface
  ceiling : Surface
  backWall : Surface
  frontWall : Surface
  leftWall : Surface
  rightWall : Surface
deriving DecidableEq

def sinQ (n : ℤ) : ℤ :=
  if n % 4 = 0 then 0 else if n % 4 = 1 then 1 else if n % 4 = 2 then 0 else -1

def cosQ (n : ℤ) : ℤ := sinQ (n + 1)

/-- The world normal of a surface: the plane geometry's local `+z`
normal rotated by the surface's (exact, quarter-turn) Euler angles. -/
def surfaceNormal (s : Surface) : ℤ × ℤ × ℤ :=
  let v : ℤ × ℤ × ℤ := (0, -(sinQ s.rotXQ), cosQ s.rotXQ)
  (cosQ s.rotYQ * v.1 + sinQ s.rotYQ * v.2.2, v.2.1,
    -(sinQ s.rotYQ) * v.1 + cosQ s.rotYQ * v.2.2)

/-- The six surfaces of `Room` (source lines 88-119), geometry only
(materials and textures are not needed by any claim). -/
def buildRoomShell (room : RoomSpec) : RoomShell :=
  let width := jsOrQ room.width 10
  let height := jsOrQ room.height 5
  let depth := jsOrQ room.depth 10
  { floor := ⟨(width, depth), ⟨0, -height / 2, 0⟩, -1, 0⟩
    ceiling := ⟨(width, depth), ⟨0, height / 2, 0⟩, 1, 0⟩
    backWall := ⟨(width, height), ⟨0, 0, -depth / 2⟩, 0, 0⟩
    frontWall := ⟨(width, height), ⟨0, 0, depth / 2⟩, 0, 2⟩
    leftWall := ⟨(depth, height), ⟨-width / 2, 0, 0⟩, 0, 1⟩
    rightWall := ⟨(depth, height), ⟨width / 2, 0, 0⟩, 0, -1⟩ }

/-! ## Claim theorems for the scene -/

/-- C1 (code evaluation at the failing input): every point of the plane
the controller drags along lies at `y = +height/2` (the ceiling), not at
the floor height `y = -height/2` the spec states.  With room height 4
and the pointer ray from `(0,6,0)` along `(1,-1,0)`, the code reports
`(x,z) = (4,0)` — the intersection with the plane `y = +2` — while the
floor-plane intersection of the same ray is `(8,-2,0)`, so the claimed
behavior would report `x = 8`. -/
theorem claim_C1_drag_plane_is_at_plus_half_height :
    (∀ p : Vec3, planeDistanceToPoint (dragPlane 4) p = 0 ↔ p.y = 2) ∧
    handleMouseMove (some 0) 4 ⟨⟨0, 6, 0⟩, ⟨1, -1, 0⟩⟩ = some (0, 4, 0) ∧
    intersectPlane ⟨⟨0, 6, 0⟩, ⟨1, -1, 0⟩⟩ (floorPlaneSpec 4) = some ⟨8, -2, 0⟩ ∧
    (4 : ℚ) ≠ 8 := by
  refine ⟨?_, ?_, ?_, by norm_num⟩
  · intro p
    unfold planeDistanceToPoint dragPlane dot3
    constructor <;> intro h <;> dsimp at * <;> linarith
  · unfold handleMouseMove intersectPlane rayDistanceToPlane dragPlane
      planeDistanceToPoint dot3 rayPointAt
    norm_num
  · unfold intersectPlane rayDistanceToPlane floorPlaneSpec
      planeDistanceToPoint dot3 rayPointAt
    norm_num

/-- C2 (code evaluation at the failing input): with two chairs `"a"` and
`"b"` and a pointer-down whose intersections are exactly the meshes of
`"b"`'s composition, the hit's `object.parent.userData.id` is empty
(the builders' inner groups carry no userData — the id sits one level
higher), so the id lookup fails and the selection is left unchanged
instead of resolving to index 1; a pointer-down with no intersections
does clear the selection. -/
theorem claim_C2_selection_never_resolves :
    ((pickableHits (buildSceneGraph
      [⟨"a", "chair", some 0, some 0, none, none, none⟩,
       ⟨"b", "chair", some 5, some 0, none, none, none⟩] 5)).drop 6).length = 6 ∧
    (∀ hit ∈ pickableHits (buildSceneGraph
      [⟨"a", "chair", some 0, some 0, none, none, none⟩,
       ⟨"b", "chair", some 5, some 0, none, none, none⟩] 5),
      hit.parentUserData = none) ∧
    handleMouseDown
      [⟨"a", "chair", some 0, some 0, none, none, none⟩,
       ⟨"b", "chair", some 5, some 0, none, none, none⟩]
      ((pickableHits (buildSceneGraph
        [⟨"a", "chair", some 0, some 0, none, none, none⟩,
         ⟨"b", "chair", some 5, some 0, none, none, none⟩] 5)).drop 6)
      none = none ∧
    List.findIdx? (fun it => it.id == "b")
      [(⟨"a", "chair", some 0, some 0, none, none, none⟩ : Item),
       ⟨"b", "chair", some 5, some 0, none, none, none⟩] = some 1 ∧
    handleMouseDown
      [⟨"a", "chair", some 0, some 0, none, none, none⟩,
       ⟨"b", "chair", some 5, some 0, none, none, none⟩] [] (some 0) = none := by
  refine ⟨rfl, by decide, rfl, rfl, rfl⟩

/-- C3 counterexample: starting Free at pose `(5,5,5)` looking at the
origin with full gestures, switching to TopDown and back yields the
fixed pose `(10,10,10)`, not the original pose. -/
theorem claim_C3_counterexample :
    (applyViewModeEffect "3D"
      (applyViewModeEffect "2D" ⟨⟨5, 5, 5⟩, ⟨0, 0, 0⟩⟩ ⟨true, true, true⟩).1
      (applyViewModeEffect "2D" ⟨⟨5, 5, 5⟩, ⟨0, 0, 0⟩⟩ ⟨true, true, true⟩).2).1 ≠
      ⟨⟨5, 5, 5⟩, ⟨0, 0, 0⟩⟩ := by
  decide

/-- C3 (amended): the TopDown→Free round trip always restores the Free
gesture set (rotate, zoom and pan all enabled) and always lands on the
canonical Free pose `(10,10,10)` looking at the origin; it restores the
starting camera pose only when that pose is the canonical one. -/
theorem claim_C3_round_trip_gestures_canonical_pose (cam : CameraPose)
    (ctrl : ControlFlags) :
    (applyViewModeEffect "3D" (applyViewModeEffect "2D" cam ctrl).1
      (applyViewModeEffect "2D" cam ctrl).2).2 = ⟨true, true, true⟩ ∧
    (applyViewModeEffect "3D" (applyViewModeEffect "2D" cam ctrl).1
      (applyViewModeEffect "2D" cam ctrl).2).1 = ⟨⟨10, 10, 10⟩, ⟨0, 0, 0⟩⟩ ∧
    (cam ≠ ⟨⟨10, 10, 10⟩, ⟨0, 0, 0⟩⟩ →
      (applyViewModeEffect "3D" (applyViewModeEffect "2D" cam ctrl).1
        (applyViewModeEffect "2D" cam ctrl).2).1 ≠ cam) :=
  ⟨rfl, rfl, fun hne h => hne h.symm⟩

/-- C4 counterexample: the tag `"tv-stand"` is not one of the source's
dispatch tags (the source matches `'tvstand'`), so a descriptor typed
`"tv-stand"` renders no composition, while `"tvstand"` renders the
tv-stand body and plinth. -/
theorem claim_C4_counterexample :
    renderItem ⟨"x", "tv-stand", none, none, none, none, none⟩ 5 = none ∧
    renderItem ⟨"x", "tvstand", none, none, none, none, none⟩ 5 =
      some (buildTVStand ⟨"x", "tvstand", none, none, none, none, none⟩ 5) := by
  exact ⟨rfl, rfl⟩

/-- C4 (amended): each of the seven tags `chair`, `table`, `sofa`,
`bookshelf`, `tvstand`, `bed`, `lamp` dispatches to its builder, every
other tag yields no composition, and a descriptor never affects how its
neighbours render. -/
theorem claim_C4_type_tag_dispatch (item : Item) (rh : ℚ) :
    (item.type = "chair" → renderItem item rh = some (buildChair item rh)) ∧
    (item.type = "table" → renderItem item rh = some (buildTable item rh)) ∧
    (item.type = "sofa" → renderItem item rh = some (buildSofa item rh)) ∧
    (item.type = "bookshelf" → renderItem item rh = some (buildBookshelf item rh)) ∧
    (item.type = "tvstand" → renderItem item rh = some (buildTVStand item rh)) ∧
    (item.type = "bed" → renderItem item rh = some (buildBed item rh)) ∧
    (item.type = "lamp" → renderItem item rh = some (buildLamp item rh)) ∧
    (item.type ∉ ["chair", "table", "sofa", "bookshelf", "tvstand", "bed", "lamp"] →
      renderItem item rh = none) ∧
    (∀ pre post : List Item,
      sceneChildren (pre ++ item :: post) rh =
        sceneChildren pre rh ++ renderItem item rh :: sceneChildren post rh) := by
  refine ⟨fun h => by simp [renderItem, h], fun h => by simp [renderItem, h],
    fun h => by simp [renderItem, h], fun h => by simp [renderItem, h],
    fun h => by simp [renderItem, h], fun h => by simp [renderItem, h],
    fun h => by simp [renderItem, h], fun h => ?_, fun pre post => ?_⟩
  · simp only [List.mem_cons, List.mem_singleton, List.not_mem_nil] at h
    push_neg at h
    unfold renderItem
    simp [h.1, h.2.1, h.2.2.1, h.2.2.2.1, h.2.2.2.2.1, h.2.2.2.2.2.1, h.2.2.2.2.2.2]
  · unfold sceneChildren
    simp

/-- C8: in TopDown mode the orthographic frustum's visible half-extent
equals `max(width, depth) * 1.5` for every room with both dimensions
present and positive. -/
theorem claim_C8_topdown_extent (room : RoomSpec) (W D : ℚ)
    (hw : room.width = some W) (hd : room.depth = some D)
    (hW : 0 < W) (hD : 0 < D) :
    ∃ zoom, sceneZoom room = some zoom ∧ zoom = max W D * (3/2) ∧
      visibleHalfExtent (topDownCamera zoom) = max W D * (3/2) := by
  refine ⟨max W D * (3/2), ?_, rfl, ?_⟩
  · unfold sceneZoom
    rw [hw, hd]
    norm_num
  · unfold visibleHalfExtent topDownCamera
    ring

theorem claim_C8_topdown_extent_witness :
    (0 : ℚ) < 10 ∧ (0 : ℚ) < 14 ∧ max (10 : ℚ) 14 * (3/2) = 21 ∧
    (∃ zoom, sceneZoom ⟨some 10, none, some 14, none, none⟩ = some zoom ∧
      zoom = max (10 : ℚ) 14 * (3/2) ∧
      visibleHalfExtent (topDownCamera zoom) = max (10 : ℚ) 14 * (3/2)) :=
  ⟨by norm_num, by norm_num,
    by rw [max_eq_right (by norm_num : (10 : ℚ) ≤ 14)]; norm_num,
    claim_C8_topdown_extent ⟨some 10, none, some 14, none, none⟩ 10 14 rfl rfl
      (by norm_num) (by norm_num)⟩

/-- C9: for every room whose effective height is the positive `h`, the
shell's floor sits at `y = -h/2` with world normal pointing up and the
ceiling at `y = +h/2` with world normal pointing down. -/
theorem claim_C9_floor_ceiling (room : RoomSpec) (h : ℚ)
    (hh : jsOrQ room.height 5 = h) (hpos : 0 < h) :
    (buildRoomShell room).floor.position = ⟨0, -h / 2, 0⟩ ∧
    surfaceNormal (buildRoomShell room).floor = (0, 1, 0) ∧
    (buildRoomShell room).ceiling.position = ⟨0, h / 2, 0⟩ ∧
    surfaceNormal (buildRoomShell room).ceiling = (0, -1, 0) := by
  subst hh
  exact ⟨rfl, rfl, rfl, rfl⟩

theorem claim_C9_floor_ceiling_witness :
    jsOrQ (RoomSpec.mk none (some 4) none none none).height 5 = 4 ∧ (0 : ℚ) < 4 ∧
    ((buildRoomShell ⟨none, some 4, none, none, none⟩).floor.position =
        ⟨0, -(4 : ℚ) / 2, 0⟩ ∧
      surfaceNormal (buildRoomShell ⟨none, some 4, none, none, none⟩).floor = (0, 1, 0) ∧
      (buildRoomShell ⟨none, some 4, none, none, none⟩).ceiling.position =
        ⟨0, (4 : ℚ) / 2, 0⟩ ∧
      surfaceNormal (buildRoomShell ⟨none, some 4, none, none, none⟩).ceiling =
        (0, -1, 0)) :=
  ⟨by norm_num [jsOrQ], by norm_num,
    claim_C9_floor_ceiling ⟨none, some 4, none, none, none⟩ 4
      (by norm_num [jsOrQ]) (by norm_num)⟩

/-- C10: an explicit `0` in the `shade` or `scale` field renders exactly
as an absent field (the `||` defaults treat `0` as falsy), and the
type-specific defaults are observationally `shade 50` for chair, table,
bookshelf and tv-stand, `shade 30` for sofa and bed, `shade 70` for
lamp, and `scale 1` for every type. -/
theorem claim_C10_falsy_zero_defaults (item : Item) (rh : ℚ) :
    renderItem { item with shade := some 0 } rh =
      renderItem { item with shade := none } rh ∧
    renderItem { item with scale := some 0 } rh =
      renderItem { item with scale := none } rh ∧
    renderItem { item with type := "chair", shade := none } rh =
      renderItem { item with type := "chair", shade := some 50 } rh ∧
    renderItem { item with type := "table", shade := none } rh =
      renderItem { item with type := "table", shade := some 50 } rh ∧
    renderItem { item with type := "bookshelf", shade := none } rh =
      renderItem { item with type := "bookshelf", shade := some 50 } rh ∧
    renderItem { item with type := "tvstand", shade := none } rh =
      renderItem { item with type := "tvstand", shade := some 50 } rh ∧
    renderItem { item with type := "sofa", shade := none } rh =
      renderItem { item with type := "sofa", shade := some 30 } rh ∧
    renderItem { item with type := "bed", shade := none } rh =
      renderItem { item with type := "bed", shade := some 30 } rh ∧
    renderItem { item with type := "lamp", shade := none } rh =
      renderItem { item with type := "lamp", shade := some 70 } rh ∧
    renderItem { item with scale := none } rh =
      renderItem { item with scale := some 1 } rh := by
  obtain ⟨i, ty, x, z, sc, col, sh⟩ := item
  refine ⟨?_, ?_, ?_, ?_, ?_, ?_, ?_, ?_, ?_, ?_⟩ <;>
    simp [renderItem, buildChair, buildTable, buildSofa, buildBookshelf,
      buildTVStand, buildBed, buildLamp, jsOrQ]
